import Mathlib

/-!
Verification of the BS-Naman-Back media permanence pipeline.

The definitions below are a shallow embedding of the JavaScript source:
  - src/routes/mediaRoutes.js : the media proxy route, the upload route
    (multer disk storage) and the media serve route;
  - src/utils/apiUtils.js : getMediaDetails, fetchProxiedMedia, uploadMedia,
    fetchMediaContentForForwarding (the media permanence orchestrator) and
    forwardMessage (the forwarding service);
  - src/utils/orderUtils.js : generateOrderId.

External I/O (provider lookup, HTTP fetch, upload POST, WhatsApp send,
database insert) is modelled by explicit outcome parameters: each collaborator
call site takes the outcome that call produced, so the control flow of the
embedded functions mirrors the source line by line while every run of a
collaborator is an arbitrary value the theorems quantify over.
-/

namespace BSNaman

/-! ## Domain validator (mediaRoutes.js lines 324-334) -/

/-- The fixed allow-list of trusted media hosts (mediaRoutes.js 324-329). -/
def allowedDomains : List String :=
  ["lookaside.fbsbx.com", "scontent.whatsapp.net",
   "mmg.whatsapp.net", "pps.whatsapp.net"]

/-- JavaScript String.prototype.endsWith, on the character lists. -/
def endsWithJs (s suffix : String) : Bool :=
  suffix.data.isSuffixOf s.data

/-- Embedding of the isValidDomain check (mediaRoutes.js 332-334):
some domain in the allow-list satisfies hostname equal to domain or
hostname ending with "." concatenated with domain. -/
def isValidDomain (hostname : String) : Bool :=
  allowedDomains.any fun domain =>
    hostname == domain || endsWithJs hostname ("." ++ domain)

/-! ## Media proxy route (mediaRoutes.js lines 276-525) -/

/-- JSON error body sent by the routes: the error, message and code fields
of the res.json argument, as string literals of the source. -/
structure ErrorBody where
  error : String
  message : String
  code : String
deriving DecidableEq

/-- Outcome of the upstream fetch call, as observed by the route handler. -/
inductive UpstreamOutcome where
  /-- The AbortError raised when the 30000 ms timer fires before headers. -/
  | timeout
  /-- Connection failure whose error code is ENOTFOUND (DNS). -/
  | dnsFailure
  /-- Connection failure whose error code is ECONNREFUSED. -/
  | connRefused
  /-- Any other exception thrown by the fetch call. -/
  | otherFailure
  /-- An HTTP response arrived; ok is true exactly when the status is 2xx. -/
  | response (ok : Bool) (status : Nat) (statusText : String)
      (contentType : Option String) (contentLength : Option Nat)
deriving DecidableEq

/-- Response produced by the proxy route. -/
inductive ProxyResponse where
  /-- A res.status(status).json call with an error body. -/
  | errorJson (status : Nat) (body : ErrorBody)
  /-- The 200 streaming response with the upstream content type and the
  fixed Cache-Control and X-Media-Source header values. -/
  | stream (contentType : String) (cacheControl : String) (mediaSource : String)
deriving DecidableEq

/-- Embedding of the GET /api/proxy-fb-media handler (mediaRoutes.js 276-525).
decodeResult models decodeURIComponent on the raw parameter (none when it
throws), hostnameOf models new URL(decodedUrl).hostname (none when the URL
constructor throws, which the outer catch answers with the generic 500), and
upstream is the outcome of the fetch call. The Bool component records whether
the upstream fetch of the decoded URL was initiated. -/
def proxyFbMedia (urlParam : Option String)
    (decodeResult : String → Option String)
    (hostnameOf : String → Option String)
    (upstream : UpstreamOutcome) : ProxyResponse × Bool :=
  match urlParam with
  | none =>
    (.errorJson 400
      { error := "Missing required parameter: url",
        message := "Please provide a Facebook media URL in the url query parameter",
        code := "MISSING_URL_PARAMETER" }, false)
  | some raw =>
    match decodeResult raw with
    | none =>
      (.errorJson 400
        { error := "Invalid URL parameter",
          message := "URL parameter could not be decoded",
          code := "INVALID_URL_ENCODING" }, false)
    | some decodedUrl =>
      match hostnameOf decodedUrl with
      | none =>
        (.errorJson 500
          { error := "Internal server error",
            message := "An unexpected error occurred while proxying media",
            code := "INTERNAL_SERVER_ERROR" }, false)
      | some hostname =>
        if isValidDomain hostname then
          match upstream with
          | .timeout =>
            (.errorJson 408
              { error := "Request timeout",
                message := "Facebook media request timed out after 30 seconds",
                code := "REQUEST_TIMEOUT" }, true)
          | .dnsFailure =>
            (.errorJson 502
              { error := "Network error",
                message := "Unable to connect to Facebook servers",
                code := "NETWORK_ERROR" }, true)
          | .connRefused =>
            (.errorJson 502
              { error := "Network error",
                message := "Unable to connect to Facebook servers",
                code := "NETWORK_ERROR" }, true)
          | .otherFailure =>
            (.errorJson 500
              { error := "Internal server error",
                message := "An unexpected error occurred while proxying media",
                code := "INTERNAL_SERVER_ERROR" }, true)
          | .response ok status statusText contentType _ =>
            if ok then
              (.stream (contentType.getD "application/octet-stream")
                "public, max-age=3600" "Facebook", true)
            else
              (.errorJson 502
                { error := "Facebook request failed",
                  message := "Facebook returned " ++ toString status ++ ": " ++ statusText,
                  code := "FACEBOOK_REQUEST_FAILED" }, true)
        else
          (.errorJson 403
            { error := "Forbidden domain",
              message := "URL must be from an authorized Facebook/WhatsApp domain",
              code := "UNAUTHORIZED_DOMAIN" }, false)

/-! ## File extension handling

jsExtname embeds the posix path.extname used by the serve route: the suffix
of the basename from its last dot, empty when the basename has no dot, when
its only dot is its first character, or when the basename is exactly two
dots. extGo walks the reversed character list. -/

/-- Walk the reversed characters of a path; acc holds the characters already
passed, in original order. Stops at a path separator (no extension) or at a
dot (extension found, subject to the leading-dot and double-dot rules). -/
def extGo : List Char → List Char → Option (List Char)
  | [], _ => none
  | c :: rest, acc =>
    if c = '/' then none
    else if c = '.' then
      if rest.isEmpty ∨ rest.head? = some '/' then none
      else if acc.isEmpty ∧ rest.head? = some '.' ∧
          (rest.tail.isEmpty ∨ rest.tail.head? = some '/') then none
      else some ('.' :: acc)
    else extGo rest (c :: acc)

/-- Embedding of path.extname for the filenames this system handles. -/
def jsExtname (s : String) : String :=
  match extGo s.data.reverse [] with
  | none => ""
  | some l => ⟨l⟩

/-- The serve-side extension to content type table (mediaRoutes.js 194-205). -/
def contentTypeMap : List (String × String) :=
  [(".jpg", "image/jpeg"), (".jpeg", "image/jpeg"), (".png", "image/png"),
   (".gif", "image/gif"), (".webp", "image/webp"), (".mp4", "video/mp4"),
   (".mov", "video/quicktime"), (".mp3", "audio/mpeg"), (".m4a", "audio/mp4"),
   (".ogg", "audio/ogg")]

/-- ASCII lower-casing of one character. -/
def lowerChar (c : Char) : Char :=
  if 65 ≤ c.toNat ∧ c.toNat ≤ 90 then Char.ofNat (c.toNat + 32) else c

/-- JavaScript String.prototype.toLowerCase for ASCII file extensions. -/
def jsToLower (s : String) : String :=
  ⟨s.data.map lowerChar⟩

/-- Content type chosen by the serve route from the file extension
(mediaRoutes.js 192-208): table lookup on the lower-cased extension with
application/octet-stream as the default. -/
def serveContentType (filename : String) : String :=
  (contentTypeMap.lookup (jsToLower (jsExtname filename))).getD "application/octet-stream"

/-! ## Media serve route (mediaRoutes.js lines 152-266) -/

/-- Resolution of one path.join segment over already-resolved segments:
dot and empty segments vanish, a double dot pops the last segment. -/
def joinStep (acc : List String) (seg : String) : List String :=
  if seg = "." ∨ seg = "" then acc
  else if seg = ".." then acc.dropLast
  else acc ++ [seg]

/-- Split on the path separator, as JavaScript string split does. -/
def splitSlash (s : String) : List String :=
  (s.data.splitOn '/').map fun l => ⟨l⟩

/-- Embedding of path.join(cwd, uploads, media, filename) as normalized
path segments; the filename may itself contribute several segments when it
contains percent-decoded slashes. -/
def resolveServePath (cwd : List String) (filename : String) : List String :=
  (cwd ++ ["uploads", "media"] ++ splitSlash filename).foldl joinStep []

/-- The storage root the spec says serving must stay inside. -/
def mediaRoot (cwd : List String) : List String := cwd ++ ["uploads", "media"]

/-- Response of the GET /uploads/media/:filename route. -/
inductive ServeResponse where
  /-- res.status(status).json with an error body. -/
  | errorJson (status : Nat) (body : ErrorBody)
  /-- fs.createReadStream(filePath).pipe(res) with the derived content type. -/
  | fileStream (filePath : List String) (contentType : String)
deriving DecidableEq

/-- Embedding of the serve handler (mediaRoutes.js 152-266): join the
filename onto the storage root, answer 404 when the resolved file does not
exist, otherwise stream the resolved file with the extension-derived content
type. fsExists is the outcome of fs.existsSync per resolved path. No branch
of the source inspects the filename for traversal sequences. -/
def serveMedia (cwd : List String) (filename : String)
    (fsExists : List String → Bool) : ServeResponse :=
  let filePath := resolveServePath cwd filename
  if fsExists filePath then
    .fileStream filePath (serveContentType filename)
  else
    .errorJson 404
      { error := "File not found",
        message := "The requested media file does not exist",
        code := "FILE_NOT_FOUND" }

/-! ## Upload storage (mediaRoutes.js lines 10-33, server.js lines 25-133) -/

/-- The multer disk-storage extension choice (mediaRoutes.js 25):
path.extname of the original name, or .bin when that is empty. -/
def multerExt (originalname : String) : String :=
  let e := jsExtname originalname
  if e = "" then ".bin" else e

/-- The filename multer stores the upload under (mediaRoutes.js 22-27):
media- then Date.now() then - then a random integer, with the extension
taken from the uploaded original name. nowMs and rand are the stringified
numbers. -/
def multerFilename (nowMs rand : String) (originalname : String) : String :=
  "media-" ++ nowMs ++ "-" ++ rand ++ multerExt originalname

/-- A flat file store: resolved path to byte content. -/
def Fs := List (String × List Nat)

/-- Replace or create the file at the given path. -/
def fsPut (fs : Fs) (p : String) (content : List Nat) : Fs :=
  (p, content) :: (fs.filter fun e => ¬ (e.1 = p))

/-- Whether a file exists at the path. -/
def fsHas (fs : Fs) (p : String) : Bool :=
  fs.any fun e => e.1 = p

/-- Content of the file at the path. -/
def fsGet (fs : Fs) (p : String) : Option (List Nat) :=
  (fs.find? fun e => e.1 = p).map (·.2)

/-- fs.unlink of the path (server.js 127). -/
def fsDelete (fs : Fs) (p : String) : Fs :=
  fs.filter fun e => ¬ (e.1 = p)

/-- Embedding of the multer disk-storage write: fs.createWriteStream on the
final path (destination joined with the generated filename) and a pipe of
the incoming chunks into it. failAfter none means the stream completes; some
k means the write fails after k chunks were flushed. The Bool is true on
success. There is no temporary name and no rename step in the source. -/
def multerDiskWrite (fs : Fs) (finalPath : String)
    (chunks : List (List Nat)) (failAfter : Option Nat) : Fs × Bool :=
  match failAfter with
  | none => (fsPut fs finalPath chunks.flatten, true)
  | some k => (fsPut fs finalPath ((chunks.take k).flatten), false)

/-- Embedding of the server.js upload handler after multer stored the file
(server.js 91-133): on a database insert failure the catch block unlinks the
stored file and answers 500; on success it answers 201. -/
def serverUploadAfterStore (fs : Fs) (filePath : String)
    (dbInsert : Except String Nat) : Fs × Nat :=
  match dbInsert with
  | .ok _ => (fs, 201)
  | .error _ => (fsDelete fs filePath, 500)

/-! ## Media permanence orchestrator (apiUtils.js, src/unnamed/part_007) -/

/-- Media details returned by the provider lookup getMediaDetails
(part_007 47-105): the url, mime_type and file_size fields. -/
structure MediaDetails where
  url : String
  mime_type : String
  file_size : Nat
deriving DecidableEq

/-- Result shape of fetchMediaContentForForwarding (part_007 300-339). -/
structure MediaForwardResult where
  url : String
  type : String
  isPermanent : Bool
  isFallback : Bool := false
  filename : Option String := none
  size : Option Nat := none
deriving DecidableEq

/-- Collaborator outcomes for one orchestrator run. resolve n is the outcome
of the nth getMediaDetails call for the media id (0 primary, 1 recovery);
fetchBlob is the outcome of fetchProxiedMedia on a url, returning the blob
size; upload is the outcome of uploadMedia on blob size, mime type and file
extension, returning the permanentUrl field; apiRoot is CONFIG.API_ROOT and
now the Date.now() value used for the result filename. -/
structure ForwardingEnv where
  resolve : Nat → Except String MediaDetails
  fetchBlob : String → Except String Nat
  upload : Nat → String → String → Except String String
  apiRoot : String
  now : Nat

/-- The orchestrator MIME type to extension table
(fetchMediaContentForForwarding, part_007 270-280). -/
def extensionMap : List (String × String) :=
  [("image/jpeg", ".jpg"), ("image/png", ".png"), ("image/gif", ".gif"),
   ("image/webp", ".webp"), ("video/mp4", ".mp4"), ("video/quicktime", ".mov"),
   ("audio/mpeg", ".mp3"), ("audio/ogg", ".ogg"), ("audio/mp4", ".m4a")]

/-- mimeType.split on the slash, index 1, with the JavaScript undefined
interpolation when there is no second part. -/
def mimeSubtype (mimeType : String) : String :=
  match splitSlash mimeType with
  | _ :: s :: _ => s
  | _ => "undefined"

/-- The extension chosen for a MIME type (part_007 281): table entry, or a
dot followed by the subtype for an unlisted MIME type. -/
def fileExtensionFor (mimeType : String) : String :=
  (extensionMap.lookup mimeType).getD ("." ++ mimeSubtype mimeType)

/-- The filename uploadMedia attaches to the multipart payload
(part_007 182): media underscore Date.now() extension. -/
def uploadFilename (nowMs : String) (fileExtension : String) : String :=
  "media_" ++ nowMs ++ fileExtension

/-- The try block of fetchMediaContentForForwarding (part_007 251-318):
resolve the media id, fetch the blob through the proxy, choose the extension
from the mime type (defaulting a falsy mime_type to application/octet-stream)
and upload, producing the permanent result. -/
def primaryFlow (env : ForwardingEnv) : Except String MediaForwardResult :=
  match env.resolve 0 with
  | .error e => .error e
  | .ok d =>
    let mimeType := if d.mime_type = "" then "application/octet-stream" else d.mime_type
    let fileExtension := fileExtensionFor mimeType
    match env.fetchBlob d.url with
    | .error e => .error e
    | .ok blobSize =>
      match env.upload blobSize mimeType fileExtension with
      | .error e => .error e
      | .ok permanentUrl =>
        .ok { url := env.apiRoot ++ permanentUrl,
              type := mimeType,
              isPermanent := true,
              isFallback := false,
              filename := some (uploadFilename (toString env.now) fileExtension),
              size := some blobSize }

/-- Embedding of fetchMediaContentForForwarding (part_007 244-361): run the
primary flow; on failure re-resolve the media id once and degrade to the
provider url, and only when that recovery also fails rethrow the original
error. The Nat component counts the getMediaDetails calls made. -/
def fetchMediaContentForForwarding (env : ForwardingEnv) :
    Except String MediaForwardResult × Nat :=
  match primaryFlow env with
  | .ok r => (.ok r, 1)
  | .error e =>
    match env.resolve 1 with
    | .ok d =>
      (.ok { url := d.url, type := d.mime_type,
             isPermanent := false, isFallback := true }, 2)
    | .error _ => (.error e, 2)

/-! ## Forwarding service (forwardMessage, part_007 371-503) -/

/-- The source message row, as forwardMessage reads it. A null content or
media_id is modelled by the empty string being falsy, matching the
JavaScript truthiness tests of the source. -/
structure SourceMessage where
  message_id : String
  content : String
  media_id : Option String
  sender_type : String
deriving DecidableEq

/-- The message row forwardMessage persists (part_007 446-452). -/
structure ForwardedRecord where
  order_id : String
  content : String
  sender_type : String
  forwarded_from : String
  original_message_id : String
deriving DecidableEq

/-- message.content ? content newline newline text : text (part_007 405). -/
def joinContent (base text : String) : String :=
  if base = "" then text else base ++ "\n\n" ++ text

/-- The composed outgoing content of forwardMessage (part_007 392-434): when
the message carries a media id, annotate with the orchestrator result url or
with the failure annotation; otherwise forward the content unchanged. -/
def composeForwardContent (msg : SourceMessage) (env : ForwardingEnv) : String :=
  match msg.media_id with
  | some mid =>
    if mid = "" then msg.content
    else
      match (fetchMediaContentForForwarding env).1 with
      | .ok md => joinContent msg.content ("[Media: " ++ md.type ++ "] " ++ md.url)
      | .error _ =>
        joinContent msg.content ("[Media processing failed - ID: " ++ mid ++ "]")
  | none => msg.content

/-- Embedding of forwardMessage (part_007 371-503): compose the content,
send it over WhatsApp, persist the forwarded record, and return the record
with the send result and the new message id. send is the outcome of
sendWhatsAppMessage on recipient and content; save is the outcome of
saveMessage on the record, returning the new message_id. Send and save
failures propagate; a media failure does not. -/
def forwardMessage (msg : SourceMessage)
    (targetOrderId recipientPhone senderType : String)
    (env : ForwardingEnv)
    (send : String → String → Except String String)
    (save : ForwardedRecord → Except String String) :
    Except String (ForwardedRecord × String × String) :=
  let messageContent := composeForwardContent msg env
  match send recipientPhone messageContent with
  | .error e => .error e
  | .ok whatsappResult =>
    let messageData : ForwardedRecord :=
      { order_id := targetOrderId,
        content := messageContent,
        sender_type := senderType,
        forwarded_from := msg.sender_type,
        original_message_id := msg.message_id }
    match save messageData with
    | .error e => .error e
    | .ok newMessageId => .ok (messageData, whatsappResult, newMessageId)

/-! ## Order id generation (orderUtils.js 6-10, server.js 145-149) -/

/-- str.slice(-2): the last two characters, or the whole string when it is
shorter than two characters. -/
def sliceLast2 (s : String) : String :=
  ⟨s.data.drop (s.data.length - 2)⟩

/-- Fuel-driven little-endian base 16 digit extraction; the fuel bounds the
recursion depth structurally and any fuel at least the number is enough. -/
def hexDigitsFuel : Nat → Nat → List Nat
  | 0, n => [n % 16]
  | fuel + 1, n => if n < 16 then [n] else (n % 16) :: hexDigitsFuel fuel (n / 16)

/-- Little-endian base 16 digits of a number; 0 renders as a single digit,
matching Number.prototype.toString(16). -/
def hexDigits (n : Nat) : List Nat :=
  hexDigitsFuel n n

/-- The uppercase hexadecimal digit character. -/
def hexChar (d : Nat) : Char :=
  if d < 10 then Char.ofNat (48 + d) else Char.ofNat (55 + d)

/-- orderNumber.toString(16).toUpperCase(). -/
def toHexUpper (n : Nat) : String :=
  ⟨((hexDigits n).reverse.map hexChar)⟩

/-- str.padStart(len, c). -/
def padStart (s : String) (len : Nat) (c : Char) : String :=
  ⟨List.replicate (len - s.data.length) c ++ s.data⟩

/-- Embedding of generateOrderId (orderUtils.js 6-10): BS, the last two
characters of the year rendered in decimal, and the uppercase hexadecimal
order number left-padded with zeros to five characters. The current year of
the source is passed as the year argument. -/
def generateOrderId (year orderNumber : Nat) : String :=
  "BS" ++ sliceLast2 (toString year) ++ padStart (toHexUpper orderNumber) 5 '0'

/-- Numeric value of an uppercase hexadecimal digit character. -/
def hexVal (c : Char) : Nat :=
  if c.toNat ≤ 57 then c.toNat - 48 else c.toNat - 55

/-- Big-endian parse of hexadecimal digit characters. -/
def parseHexChars (l : List Char) : Nat :=
  l.foldl (fun acc c => 16 * acc + hexVal c) 0

/-- Value of a little-endian digit list. -/
def listVal (ds : List Nat) : Nat :=
  ds.foldr (fun d acc => d + 16 * acc) 0

/-- The embedded endsWith holds exactly when the string is some prefix
followed by the suffix. -/
theorem endsWithJs_iff (s suffix : String) :
    endsWithJs s suffix = true ↔ ∃ p : String, s = p ++ suffix := by
  unfold endsWithJs
  rw [List.isSuffixOf_iff_suffix]
  constructor
  · rintro ⟨t, ht⟩
    refine ⟨⟨t⟩, String.ext ?_⟩
    rw [String.data_append]
    exact ht.symm
  · rintro ⟨p, rfl⟩
    exact ⟨p.data, (String.data_append p suffix).symm⟩

/-- C2: the validator accepts exactly the four listed hosts and their
dot-suffixed subdomains and rejects every other hostname. -/
theorem C2_isValidDomain_iff (h : String) :
    isValidDomain h = true ↔
      (h = "lookaside.fbsbx.com" ∨ h = "scontent.whatsapp.net" ∨
       h = "mmg.whatsapp.net" ∨ h = "pps.whatsapp.net" ∨
       (∃ p, h = p ++ ".lookaside.fbsbx.com") ∨
       (∃ p, h = p ++ ".scontent.whatsapp.net") ∨
       (∃ p, h = p ++ ".mmg.whatsapp.net") ∨
       (∃ p, h = p ++ ".pps.whatsapp.net")) := by
  have e1 : "." ++ "lookaside.fbsbx.com" = ".lookaside.fbsbx.com" := rfl
  have e2 : "." ++ "scontent.whatsapp.net" = ".scontent.whatsapp.net" := rfl
  have e3 : "." ++ "mmg.whatsapp.net" = ".mmg.whatsapp.net" := rfl
  have e4 : "." ++ "pps.whatsapp.net" = ".pps.whatsapp.net" := rfl
  simp only [isValidDomain, allowedDomains, List.any_cons, List.any_nil,
    Bool.or_eq_true, beq_iff_eq, e1, e2, e3, e4, Bool.or_false, endsWithJs_iff]
  constructor
  · rintro ((x | x) | (x | x) | (x | x) | (x | x))
    · exact Or.inl x
    · exact Or.inr (Or.inr (Or.inr (Or.inr (Or.inl x))))
    · exact Or.inr (Or.inl x)
    · exact Or.inr (Or.inr (Or.inr (Or.inr (Or.inr (Or.inl x)))))
    · exact Or.inr (Or.inr (Or.inl x))
    · exact Or.inr (Or.inr (Or.inr (Or.inr (Or.inr (Or.inr (Or.inl x))))))
    · exact Or.inr (Or.inr (Or.inr (Or.inl x)))
    · exact Or.inr (Or.inr (Or.inr (Or.inr (Or.inr (Or.inr (Or.inr x))))))
  · rintro (x | x | x | x | x | x | x | x)
    · exact Or.inl (Or.inl x)
    · exact Or.inr (Or.inl (Or.inl x))
    · exact Or.inr (Or.inr (Or.inl (Or.inl x)))
    · exact Or.inr (Or.inr (Or.inr (Or.inl x)))
    · exact Or.inl (Or.inr x)
    · exact Or.inr (Or.inl (Or.inr x))
    · exact Or.inr (Or.inr (Or.inl (Or.inr x)))
    · exact Or.inr (Or.inr (Or.inr (Or.inr x)))

/-- C3: a proxy request whose decoded url parses to a hostname outside the
allow-list is answered 403 with code UNAUTHORIZED_DOMAIN and the upstream
fetch of that URL is never initiated. -/
theorem C3_unauthorized_domain_no_fetch
    (raw decodedUrl hostname : String)
    (decodeResult : String → Option String) (hostnameOf : String → Option String)
    (upstream : UpstreamOutcome)
    (hdec : decodeResult raw = some decodedUrl)
    (hhost : hostnameOf decodedUrl = some hostname)
    (hbad : isValidDomain hostname = false) :
    proxyFbMedia (some raw) decodeResult hostnameOf upstream =
      (.errorJson 403
        { error := "Forbidden domain",
          message := "URL must be from an authorized Facebook/WhatsApp domain",
          code := "UNAUTHORIZED_DOMAIN" }, false) := by
  simp [proxyFbMedia, hdec, hhost, hbad]

/-- Witness for C3 at a concrete non-allow-listed hostname. -/
theorem C3_unauthorized_domain_no_fetch_witness :
    isValidDomain "evil.example.com" = false ∧
    proxyFbMedia (some "https%3A%2F%2Fevil.example.com%2Fx")
      (fun _ => some "https://evil.example.com/x")
      (fun _ => some "evil.example.com") .timeout =
      (.errorJson 403
        { error := "Forbidden domain",
          message := "URL must be from an authorized Facebook/WhatsApp domain",
          code := "UNAUTHORIZED_DOMAIN" }, false) :=
  ⟨by decide,
   C3_unauthorized_domain_no_fetch "https%3A%2F%2Fevil.example.com%2Fx"
     "https://evil.example.com/x" "evil.example.com" _ _ .timeout rfl rfl (by decide)⟩

/-- C8: the proxy error mapping. A missing url parameter yields 400
MISSING_URL_PARAMETER; an undecodable url yields 400 INVALID_URL_ENCODING;
an upstream timeout yields 408 REQUEST_TIMEOUT; an upstream non-2xx response
yields 502 FACEBOOK_REQUEST_FAILED; a DNS or connection failure yields 502
NETWORK_ERROR; each response body carries its machine readable code field. -/
theorem C8_proxy_error_codes
    (decodeResult : String → Option String) (hostnameOf : String → Option String)
    (upstream : UpstreamOutcome) (raw decodedUrl hostname : String)
    (hdec : decodeResult raw = some decodedUrl)
    (hhost : hostnameOf decodedUrl = some hostname)
    (hok : isValidDomain hostname = true) :
    (proxyFbMedia none decodeResult hostnameOf upstream =
       (.errorJson 400
         { error := "Missing required parameter: url",
           message := "Please provide a Facebook media URL in the url query parameter",
           code := "MISSING_URL_PARAMETER" }, false))
  ∧ (∀ raw2, decodeResult raw2 = none →
       proxyFbMedia (some raw2) decodeResult hostnameOf upstream =
         (.errorJson 400
           { error := "Invalid URL parameter",
             message := "URL parameter could not be decoded",
             code := "INVALID_URL_ENCODING" }, false))
  ∧ (upstream = .timeout →
       proxyFbMedia (some raw) decodeResult hostnameOf upstream =
         (.errorJson 408
           { error := "Request timeout",
             message := "Facebook media request timed out after 30 seconds",
             code := "REQUEST_TIMEOUT" }, true))
  ∧ (∀ status statusText contentType contentLength,
       upstream = .response false status statusText contentType contentLength →
       proxyFbMedia (some raw) decodeResult hostnameOf upstream =
         (.errorJson 502
           { error := "Facebook request failed",
             message := "Facebook returned " ++ toString status ++ ": " ++ statusText,
             code := "FACEBOOK_REQUEST_FAILED" }, true))
  ∧ (upstream = .dnsFailure ∨ upstream = .connRefused →
       proxyFbMedia (some raw) decodeResult hostnameOf upstream =
         (.errorJson 502
           { error := "Network error",
             message := "Unable to connect to Facebook servers",
             code := "NETWORK_ERROR" }, true)) := by
  refine ⟨rfl, ?_, ?_, ?_, ?_⟩
  · intro raw2 h2
    simp [proxyFbMedia, h2]
  · rintro rfl
    simp [proxyFbMedia, hdec, hhost, hok]
  · rintro status statusText contentType contentLength rfl
    simp [proxyFbMedia, hdec, hhost, hok]
  · rintro (rfl | rfl) <;> simp [proxyFbMedia, hdec, hhost, hok]

/-- Witness for C8 at concrete inputs: the timeout case with an
allow-listed host. -/
theorem C8_proxy_error_codes_witness :
    proxyFbMedia (some "u") (fun s => some s) (fun _ => some "mmg.whatsapp.net")
      .timeout =
      (.errorJson 408
        { error := "Request timeout",
          message := "Facebook media request timed out after 30 seconds",
          code := "REQUEST_TIMEOUT" }, true) :=
  ((C8_proxy_error_codes (fun s => some s) (fun _ => some "mmg.whatsapp.net")
      .timeout "u" "u" "mmg.whatsapp.net" rfl rfl (by decide)).2.2.1) rfl

/-- C1: the orchestrator never propagates an error while the recovery
lookup succeeds. When the primary flow succeeds there is a single provider
resolution and the permanent result is returned; when any step of the
primary flow fails there is exactly one recovery re-resolution, whose
success yields the degraded result built from the re-resolved source url
with isPermanent false and isFallback true, and whose failure makes the
orchestrator rethrow the original primary-flow error. -/
theorem C1_orchestrator_fallback (env : ForwardingEnv) :
    ((env.resolve 1).isOk = true →
       (fetchMediaContentForForwarding env).1.isOk = true)
  ∧ (∀ r, primaryFlow env = .ok r →
       fetchMediaContentForForwarding env = (.ok r, 1))
  ∧ (∀ e, primaryFlow env = .error e →
       (∀ d, env.resolve 1 = .ok d →
          fetchMediaContentForForwarding env =
            (.ok { url := d.url, type := d.mime_type,
                   isPermanent := false, isFallback := true }, 2))
     ∧ (∀ e2, env.resolve 1 = .error e2 →
          fetchMediaContentForForwarding env = (.error e, 2))) := by
  refine ⟨?_, ?_, ?_⟩
  · intro h1
    unfold fetchMediaContentForForwarding
    cases hp : primaryFlow env with
    | ok r => rfl
    | error e =>
      cases hr : env.resolve 1 with
      | ok d => rfl
      | error e2 => rw [hr] at h1; simp [Except.isOk, Except.toBool] at h1
  · intro r hp
    unfold fetchMediaContentForForwarding
    rw [hp]
  · intro e hp
    constructor
    · intro d hr
      unfold fetchMediaContentForForwarding
      rw [hp, hr]
    · intro e2 hr
      unfold fetchMediaContentForForwarding
      rw [hp, hr]

/-- Concrete environment for the C1 witness: the primary resolution fails,
the recovery resolution succeeds. -/
def envC1 : ForwardingEnv where
  resolve n :=
    match n with
    | 0 => .error "WhatsApp API request failed: 500 Internal Server Error"
    | _ => .ok { url := "https://scontent.whatsapp.net/x",
                 mime_type := "image/jpeg", file_size := 2048 }
  fetchBlob _ := .error "unreached"
  upload _ _ _ := .error "unreached"
  apiRoot := "https://bsgold-api.chatloom.in"
  now := 1700000000000

/-- Witness for C1: with the primary resolution failing and the recovery
succeeding, the orchestrator returns the degraded fallback result. -/
theorem C1_orchestrator_fallback_witness :
    fetchMediaContentForForwarding envC1 =
      (.ok { url := "https://scontent.whatsapp.net/x", type := "image/jpeg",
             isPermanent := false, isFallback := true }, 2) :=
  (((C1_orchestrator_fallback envC1).2.2
      "WhatsApp API request failed: 500 Internal Server Error" rfl).1
    { url := "https://scontent.whatsapp.net/x",
      mime_type := "image/jpeg", file_size := 2048 } rfl)

/-- C4: forwardMessage still sends and persists when the message carries a
media id, whatever the orchestrator outcome. On orchestrator success the
composed content carries the media annotation with the returned type and
url; on orchestrator error it carries the failure annotation with the media
id; in both cases the forward succeeds whenever the send and the save
succeed, and the persisted record carries exactly that composed content. -/
theorem C4_forward_media_never_fatal (msg : SourceMessage) (mid : String)
    (targetOrderId recipientPhone senderType : String)
    (env : ForwardingEnv)
    (send : String → String → Except String String)
    (save : ForwardedRecord → Except String String)
    (whatsappResult newMessageId : String)
    (hmid : msg.media_id = some mid) (hne : mid ≠ "")
    (hsend : ∀ c, send recipientPhone c = .ok whatsappResult)
    (hsave : ∀ rec, save rec = .ok newMessageId) :
    forwardMessage msg targetOrderId recipientPhone senderType env send save =
      .ok ({ order_id := targetOrderId,
             content :=
               match (fetchMediaContentForForwarding env).1 with
               | .ok md =>
                 joinContent msg.content ("[Media: " ++ md.type ++ "] " ++ md.url)
               | .error _ =>
                 joinContent msg.content ("[Media processing failed - ID: " ++ mid ++ "]"),
             sender_type := senderType,
             forwarded_from := msg.sender_type,
             original_message_id := msg.message_id },
           whatsappResult, newMessageId) := by
  simp only [forwardMessage, composeForwardContent, hmid, hsend, hsave, hne,
    if_false, ite_false]

/-- Concrete environment for the C4 witness: both provider resolutions
fail, so the orchestrator propagates its error into forwardMessage. -/
def envC4 : ForwardingEnv where
  resolve _ := .error "WhatsApp API request failed: 404 Not Found"
  fetchBlob _ := .error "unreached"
  upload _ _ _ := .error "unreached"
  apiRoot := "https://bsgold-api.chatloom.in"
  now := 1700000000000

/-- Witness for C4: with a failing orchestrator, the forward still succeeds
and persists the failure annotation appended to the original content. -/
theorem C4_forward_media_never_fatal_witness :
    forwardMessage
      { message_id := "41", content := "hello", media_id := some "MEDIA1",
        sender_type := "client" }
      "BS2600001" "919000000000" "enterprise" envC4
      (fun _ _ => .ok "wamid.1") (fun _ => .ok "42") =
      .ok ({ order_id := "BS2600001",
             content := "hello\n\n[Media processing failed - ID: MEDIA1]",
             sender_type := "enterprise",
             forwarded_from := "client",
             original_message_id := "41" },
           "wamid.1", "42") := by
  have h := C4_forward_media_never_fatal
    { message_id := "41", content := "hello", media_id := some "MEDIA1",
      sender_type := "client" }
    "MEDIA1" "BS2600001" "919000000000" "enterprise" envC4
    (fun _ _ => .ok "wamid.1") (fun _ => .ok "42") "wamid.1" "42"
    rfl (by decide) (fun _ => rfl) (fun _ => rfl)
  rw [h]
  rfl

/-- Characters that are neither a dot nor a slash are passed over by the
extension scan, accumulating in original order. -/
theorem extGo_skip (l : List Char) (hdot : '.' ∉ l) (hslash : '/' ∉ l) :
    ∀ (rest acc : List Char), extGo (l ++ rest) acc = extGo rest (l.reverse ++ acc) := by
  induction l with
  | nil => intro rest acc; simp
  | cons c t ih =>
    intro rest acc
    have hc1 : ¬ c = '/' := fun h => hslash (h ▸ List.mem_cons_self c t)
    have hc2 : ¬ c = '.' := fun h => hdot (h ▸ List.mem_cons_self c t)
    have ht1 : '.' ∉ t := fun h => hdot (List.mem_cons_of_mem c h)
    have ht2 : '/' ∉ t := fun h => hslash (List.mem_cons_of_mem c h)
    show extGo (c :: (t ++ rest)) acc = _
    rw [extGo, if_neg hc1, if_neg hc2, ih ht1 ht2 rest (c :: acc)]
    simp

/-- A string of the form prefix, dot, tail, with a nonempty slash-free
prefix and a nonempty dot-free slash-free tail, has exactly dot-tail as its
extension. -/
theorem jsExtname_eq (s : String) (pre tail : List Char)
    (hsd : s.data = pre ++ '.' :: tail)
    (hpne : pre ≠ []) (hps : '/' ∉ pre)
    (htne : tail ≠ []) (htd : '.' ∉ tail) (hts : '/' ∉ tail) :
    jsExtname s = ⟨'.' :: tail⟩ := by
  have hrev : s.data.reverse = tail.reverse ++ '.' :: pre.reverse := by
    rw [hsd, List.reverse_append, List.reverse_cons, List.append_assoc]
    simp
  have hgo : extGo s.data.reverse [] = some ('.' :: tail) := by
    rw [hrev, extGo_skip tail.reverse (by simpa using htd) (by simpa using hts)]
    rw [List.reverse_reverse, List.append_nil]
    rw [extGo, if_neg (by decide : ¬ ('.' : Char) = '/'),
      if_pos (rfl : ('.' : Char) = '.')]
    cases hpr : pre.reverse with
    | nil => exact absurd (by simpa using hpr) hpne
    | cons c cs =>
      have hcp : c ∈ pre := by
        rw [← List.mem_reverse, hpr]; exact List.mem_cons_self c cs
      have hc : ¬ (some c = some '/') := by
        intro h
        exact hps (Option.some.inj h ▸ hcp)
      rw [if_neg, if_neg]
      · intro h
        exact htne (by simpa using h.1)
      · intro h
        rcases h with h | h
        · simp at h
        · exact hc (by simpa using h)
  unfold jsExtname
  rw [hgo]

/-- Full store-then-serve extension pipeline: the upload payload filename
carries the chosen extension, multer re-derives that extension for the
stored filename, and the serve route derives its content type from the same
extension. The timestamp and random strings carry no dot and no slash. -/
theorem serve_pipeline_contentType (ts1 ts2 rand ext : String) (tail : List Char)
    (hext : ext.data = '.' :: tail)
    (htne : tail ≠ []) (htd : '.' ∉ tail) (hts : '/' ∉ tail)
    (h1d : '.' ∉ ts1.data) (h1s : '/' ∉ ts1.data)
    (h2d : '.' ∉ ts2.data) (h2s : '/' ∉ ts2.data)
    (h3d : '.' ∉ rand.data) (h3s : '/' ∉ rand.data) :
    serveContentType (multerFilename ts2 rand (uploadFilename ts1 ext)) =
      (contentTypeMap.lookup (jsToLower ext)).getD "application/octet-stream" := by
  obtain rfl : ext = ⟨'.' :: tail⟩ := String.ext hext
  have hup : jsExtname (uploadFilename ts1 ⟨'.' :: tail⟩) = ⟨'.' :: tail⟩ := by
    refine jsExtname_eq _ ("media_".data ++ ts1.data) tail ?_ (by simp) ?_ htne htd hts
    · simp [uploadFilename, String.data_append]
    · intro h
      rcases List.mem_append.1 h with h | h
      · simp at h
      · exact h1s h
  have hex2 : multerExt (uploadFilename ts1 ⟨'.' :: tail⟩) = ⟨'.' :: tail⟩ := by
    unfold multerExt
    rw [hup, if_neg]
    intro h
    exact List.cons_ne_nil _ _ (congrArg String.data h)
  have hmf :
      jsExtname (multerFilename ts2 rand (uploadFilename ts1 ⟨'.' :: tail⟩)) =
        ⟨'.' :: tail⟩ := by
    refine jsExtname_eq _
      ("media-".data ++ ts2.data ++ "-".data ++ rand.data) tail ?_ (by simp) ?_ htne htd hts
    · simp [multerFilename, hex2, String.data_append, List.append_assoc]
    · intro h
      rcases List.mem_append.1 h with h | h
      · rcases List.mem_append.1 h with h | h
        · rcases List.mem_append.1 h with h | h
          · simp at h
          · exact h2s h
        · simp at h
      · exact h3s h
  unfold serveContentType
  rw [hmf]

/-- C5: for every MIME type of the orchestrator extension table, the chosen
extension is the table entry and storing the payload under the upload
filename and then serving the multer-stored filename yields that MIME type
back as the serve-side content type: the table round trip is the identity. -/
theorem C5_mime_extension_roundtrip (mime ext ts1 ts2 rand : String)
    (hm : (mime, ext) ∈ extensionMap)
    (h1d : '.' ∉ ts1.data) (h1s : '/' ∉ ts1.data)
    (h2d : '.' ∉ ts2.data) (h2s : '/' ∉ ts2.data)
    (h3d : '.' ∉ rand.data) (h3s : '/' ∉ rand.data) :
    fileExtensionFor mime = ext ∧
    serveContentType (multerFilename ts2 rand (uploadFilename ts1 ext)) = mime := by
  fin_cases hm
  · exact ⟨by decide, by
      rw [serve_pipeline_contentType ts1 ts2 rand ".jpg" ['j', 'p', 'g']
        (by decide) (by decide) (by decide) (by decide)
        h1d h1s h2d h2s h3d h3s]; decide⟩
  · exact ⟨by decide, by
      rw [serve_pipeline_contentType ts1 ts2 rand ".png" ['p', 'n', 'g']
        (by decide) (by decide) (by decide) (by decide)
        h1d h1s h2d h2s h3d h3s]; decide⟩
  · exact ⟨by decide, by
      rw [serve_pipeline_contentType ts1 ts2 rand ".gif" ['g', 'i', 'f']
        (by decide) (by decide) (by decide) (by decide)
        h1d h1s h2d h2s h3d h3s]; decide⟩
  · exact ⟨by decide, by
      rw [serve_pipeline_contentType ts1 ts2 rand ".webp" ['w', 'e', 'b', 'p']
        (by decide) (by decide) (by decide) (by decide)
        h1d h1s h2d h2s h3d h3s]; decide⟩
  · exact ⟨by decide, by
      rw [serve_pipeline_contentType ts1 ts2 rand ".mp4" ['m', 'p', '4']
        (by decide) (by decide) (by decide) (by decide)
        h1d h1s h2d h2s h3d h3s]; decide⟩
  · exact ⟨by decide, by
      rw [serve_pipeline_contentType ts1 ts2 rand ".mov" ['m', 'o', 'v']
        (by decide) (by decide) (by decide) (by decide)
        h1d h1s h2d h2s h3d h3s]; decide⟩
  · exact ⟨by decide, by
      rw [serve_pipeline_contentType ts1 ts2 rand ".mp3" ['m', 'p', '3']
        (by decide) (by decide) (by decide) (by decide)
        h1d h1s h2d h2s h3d h3s]; decide⟩
  · exact ⟨by decide, by
      rw [serve_pipeline_contentType ts1 ts2 rand ".ogg" ['o', 'g', 'g']
        (by decide) (by decide) (by decide) (by decide)
        h1d h1s h2d h2s h3d h3s]; decide⟩
  · exact ⟨by decide, by
      rw [serve_pipeline_contentType ts1 ts2 rand ".m4a" ['m', '4', 'a']
        (by decide) (by decide) (by decide) (by decide)
        h1d h1s h2d h2s h3d h3s]; decide⟩

/-- Witness for C5 at the image/jpeg table entry and concrete timestamps. -/
theorem C5_mime_extension_roundtrip_witness :
    fileExtensionFor "image/jpeg" = ".jpg" ∧
    serveContentType (multerFilename "1700000000001" "424242"
      (uploadFilename "1700000000000" ".jpg")) = "image/jpeg" :=
  C5_mime_extension_roundtrip "image/jpeg" ".jpg" "1700000000000" "1700000000001"
    "424242" (by decide) (by decide) (by decide) (by decide) (by decide)
    (by decide) (by decide)

/-- C6 (code evidence): at the traversal filename the serve route resolves
a path outside the storage root, no branch rejects it, and the handler
streams the resolved file when it exists instead of refusing. -/
theorem C6_serve_path_traversal :
    resolveServePath ["srv", "app"] "../../../etc/passwd" = ["srv", "etc", "passwd"]
  ∧ mediaRoot ["srv", "app"] = ["srv", "app", "uploads", "media"]
  ∧ ¬ (mediaRoot ["srv", "app"] <+: resolveServePath ["srv", "app"] "../../../etc/passwd")
  ∧ serveMedia ["srv", "app"] "../../../etc/passwd" (fun _ => true) =
      .fileStream ["srv", "etc", "passwd"] "application/octet-stream" := by
  decide

/-- C7 counterexample: the filename the store keeps for an image/jpeg
upload is media-1000-5.jpg, which does not have the claimed shape
media underscore timestamp extension: its first six characters are
media hyphen, not media underscore, and a random component separates the
timestamp from the extension. -/
theorem C7_stored_filename_counterexample :
    multerFilename "1000" "5" (uploadFilename "999" (fileExtensionFor "image/jpeg")) =
      "media-1000-5.jpg"
  ∧ ("media-1000-5.jpg").data.take 6 ≠ "media_".data := by
  decide

/-- C7 amended: the upload-side payload filename is media underscore
timestamp extension with the extension from the table or the dot-subtype
fallback; the stored filename chosen by multer is media hyphen timestamp
hyphen random extension, preserving that extension via path.extname of the
payload name. The timestamp carries no slash and the extension tail is a
nonempty dot-free slash-free suffix. -/
theorem C7_filename_generation_amended (mime ts1 ts2 rand : String) (tail : List Char)
    (hext : (fileExtensionFor mime).data = '.' :: tail)
    (htne : tail ≠ []) (htd : '.' ∉ tail) (hts : '/' ∉ tail)
    (h1s : '/' ∉ ts1.data) :
    uploadFilename ts1 (fileExtensionFor mime) =
      "media_" ++ ts1 ++ fileExtensionFor mime
  ∧ multerFilename ts2 rand (uploadFilename ts1 (fileExtensionFor mime)) =
      "media-" ++ ts2 ++ "-" ++ rand ++ fileExtensionFor mime := by
  have hE : fileExtensionFor mime = ⟨'.' :: tail⟩ := String.ext hext
  have hup : jsExtname (uploadFilename ts1 (fileExtensionFor mime)) =
      fileExtensionFor mime := by
    rw [hE]
    refine jsExtname_eq _ ("media_".data ++ ts1.data) tail ?_ (by simp) ?_ htne htd hts
    · simp [uploadFilename, String.data_append]
    · intro h
      rcases List.mem_append.1 h with h | h
      · simp at h
      · exact h1s h
  have hex2 : multerExt (uploadFilename ts1 (fileExtensionFor mime)) =
      fileExtensionFor mime := by
    unfold multerExt
    rw [hup, if_neg]
    intro h
    rw [hE] at h
    exact List.cons_ne_nil _ _ (congrArg String.data h)
  exact ⟨rfl, by rw [multerFilename, hex2]⟩

/-- Witness for the amended C7 at the subtype-fallback MIME type of the
claim: application/octet-stream maps to the .octet-stream extension. -/
theorem C7_filename_generation_amended_witness :
    uploadFilename "999" (fileExtensionFor "application/octet-stream") =
      "media_999.octet-stream"
  ∧ multerFilename "1000" "5"
      (uploadFilename "999" (fileExtensionFor "application/octet-stream")) =
      "media-1000-5.octet-stream" := by
  have h := C7_filename_generation_amended "application/octet-stream" "999" "1000" "5"
    "octet-stream".data (by decide) (by decide) (by decide) (by decide) (by decide)
  exact ⟨h.1.trans (by decide), h.2.trans (by decide)⟩

/-- Deleting a path removes it from the store. -/
theorem fsHas_fsDelete (fs : Fs) (p : String) : fsHas (fsDelete fs p) p = false := by
  induction fs with
  | nil => rfl
  | cons e rest ih =>
    simp only [fsDelete, List.filter_cons] at ih ⊢
    by_cases h : e.1 = p
    · simpa [h] using ih
    · simpa [fsHas, List.any_cons, h] using ih

/-- C9 counterexample: a write of two chunks that fails after the first
leaves a file visible at the final stored path holding the partial
content, so the storage state is not as if the store had never been
attempted. -/
theorem C9_partial_write_counterexample :
    (multerDiskWrite [] "uploads/media/media-1000-5.jpg"
        [[104, 105], [33]] (some 1)).2 = false
  ∧ fsHas (multerDiskWrite [] "uploads/media/media-1000-5.jpg"
        [[104, 105], [33]] (some 1)).1 "uploads/media/media-1000-5.jpg" = true
  ∧ fsGet (multerDiskWrite [] "uploads/media/media-1000-5.jpg"
        [[104, 105], [33]] (some 1)).1 "uploads/media/media-1000-5.jpg" =
      some [104, 105] := by
  decide

/-- C9 amended: the store streams directly to the final path with no
temporary name and no rename; a write failing part-way reports failure yet
leaves the partial content visible at the final path. Only the post-store
upload handler failure path removes the completed file again through its
explicit unlink. -/
theorem C9_write_not_atomic_amended (fs : Fs) (p : String)
    (chunks : List (List Nat)) (k : Nat) (hk : k < chunks.length) :
    (multerDiskWrite fs p chunks (some k)).2 = false
  ∧ fsHas (multerDiskWrite fs p chunks (some k)).1 p = true
  ∧ fsGet (multerDiskWrite fs p chunks (some k)).1 p =
      some ((chunks.take k).flatten)
  ∧ (∀ e : String,
      serverUploadAfterStore (multerDiskWrite fs p chunks none).1 p (.error e) =
        (fsDelete (multerDiskWrite fs p chunks none).1 p, 500))
  ∧ (∀ e : String,
      fsHas (serverUploadAfterStore (multerDiskWrite fs p chunks none).1 p
        (.error e)).1 p = false) := by
  refine ⟨rfl, ?_, ?_, fun e => rfl, ?_⟩
  · simp [multerDiskWrite, fsHas, fsPut]
  · simp [multerDiskWrite, fsGet, fsPut]
  · exact fun e => fsHas_fsDelete ((multerDiskWrite fs p chunks none).1) p

/-- Witness for the amended C9. -/
theorem C9_write_not_atomic_amended_witness :
    (multerDiskWrite [] "uploads/media/a.jpg" [[1], [2]] (some 1)).2 = false
  ∧ fsGet (multerDiskWrite [] "uploads/media/a.jpg" [[1], [2]] (some 1)).1
      "uploads/media/a.jpg" = some [1] :=
  ⟨(C9_write_not_atomic_amended [] "uploads/media/a.jpg" [[1], [2]] 1
      (by decide)).1,
   ((C9_write_not_atomic_amended [] "uploads/media/a.jpg" [[1], [2]] 1
      (by decide)).2.2.1).trans (by decide)⟩

/-- Every digit the fuel-driven extraction produces is below 16. -/
theorem hexDigitsFuel_lt : ∀ fuel n, ∀ d ∈ hexDigitsFuel fuel n, d < 16 := by
  intro fuel
  induction fuel with
  | zero =>
    intro n d hd
    simp only [hexDigitsFuel, List.mem_singleton] at hd
    subst hd
    exact Nat.mod_lt _ (by omega)
  | succ fuel ih =>
    intro n d hd
    by_cases h16 : n < 16
    · simp only [hexDigitsFuel, if_pos h16, List.mem_singleton] at hd
      omega
    · simp only [hexDigitsFuel, if_neg h16, List.mem_cons] at hd
      rcases hd with rfl | hd
      · exact Nat.mod_lt _ (by omega)
      · exact ih _ d hd

/-- Every produced hexadecimal digit is below 16. -/
theorem hexDigits_lt (n : Nat) : ∀ d ∈ hexDigits n, d < 16 :=
  hexDigitsFuel_lt n n

/-- With enough fuel the digits evaluate back to the number. -/
theorem listVal_hexDigitsFuel : ∀ fuel n, n ≤ fuel →
    listVal (hexDigitsFuel fuel n) = n := by
  intro fuel
  induction fuel with
  | zero =>
    intro n h
    have hz : n = 0 := by omega
    subst hz
    rfl
  | succ fuel ih =>
    intro n h
    by_cases h16 : n < 16
    · simp [hexDigitsFuel, if_pos h16, listVal]
    · have hdle : n / 16 ≤ fuel := by
        have := Nat.div_lt_self (show 0 < n by omega) (show 1 < 16 by omega)
        omega
      simp only [hexDigitsFuel, if_neg h16, listVal, List.foldr_cons]
      have hv := ih (n / 16) hdle
      simp only [listVal] at hv
      omega

/-- The little-endian digits evaluate back to the number. -/
theorem listVal_hexDigits (n : Nat) : listVal (hexDigits n) = n :=
  listVal_hexDigitsFuel n n (Nat.le_refl n)

/-- A number below 16 to the k plus 1 has at most k plus 1 digits. -/
theorem hexDigitsFuel_length_le : ∀ fuel n k, n < 16 ^ (k + 1) →
    (hexDigitsFuel fuel n).length ≤ k + 1 := by
  intro fuel
  induction fuel with
  | zero =>
    intro n k h
    simp [hexDigitsFuel]
  | succ fuel ih =>
    intro n k h
    by_cases h16 : n < 16
    · simp [hexDigitsFuel, if_pos h16]
    · cases k with
      | zero =>
        norm_num at h
        omega
      | succ k =>
        simp only [hexDigitsFuel, if_neg h16, List.length_cons]
        have hdiv : n / 16 < 16 ^ (k + 1) := by
          refine Nat.div_lt_of_lt_mul ?_
          calc n < 16 ^ (k + 2) := h
            _ = 16 * 16 ^ (k + 1) := by ring
        exact Nat.succ_le_succ (ih (n / 16) k hdiv)

/-- A number below 16 to the k plus 1 has at most k plus 1 digits. -/
theorem hexDigits_length_le (k n : Nat) (h : n < 16 ^ (k + 1)) :
    (hexDigits n).length ≤ k + 1 :=
  hexDigitsFuel_length_le n n k h

/-- The parse function inverts the digit rendering. -/
theorem hexVal_hexChar (d : Nat) (hd : d < 16) : hexVal (hexChar d) = d := by
  interval_cases d <;> decide

/-- Parsing an appended list folds from the parse of the prefix. -/
theorem parseHexChars_append (xs ys : List Char) :
    parseHexChars (xs ++ ys) =
      ys.foldl (fun acc c => 16 * acc + hexVal c) (parseHexChars xs) := by
  simp [parseHexChars, List.foldl_append]

/-- Parsing the big-endian rendering of a digit list yields its value. -/
theorem parseHexChars_rev_map (ds : List Nat) (h : ∀ d ∈ ds, d < 16) :
    parseHexChars ((ds.reverse).map hexChar) = listVal ds := by
  induction ds with
  | nil => rfl
  | cons d rest ih =>
    have h1 : d < 16 := h d (List.mem_cons_self d rest)
    have h2 : ∀ x ∈ rest, x < 16 := fun x hx => h x (List.mem_cons_of_mem d hx)
    simp only [List.reverse_cons, List.map_append, List.map_cons, List.map_nil]
    rw [parseHexChars_append, ih h2]
    simp only [listVal, List.foldr_cons, List.foldl_cons, List.foldl_nil,
      hexVal_hexChar d h1]
    omega

/-- Leading zero characters do not change the parsed value. -/
theorem parseHexChars_zeros (k : Nat) (xs : List Char) :
    parseHexChars (List.replicate k '0' ++ xs) = parseHexChars xs := by
  induction k with
  | zero => simp
  | succ k ih =>
    simp only [List.replicate_succ, List.cons_append]
    show List.foldl _ (16 * 0 + hexVal '0') _ = _
    rw [show 16 * 0 + hexVal '0' = 0 from by decide]
    exact ih

/-- The zero-padded uppercase hexadecimal rendering parses back to the
number. -/
theorem parse_padStart_toHexUpper (n : Nat) :
    parseHexChars (padStart (toHexUpper n) 5 '0').data = n := by
  show parseHexChars (List.replicate _ '0' ++ (toHexUpper n).data) = n
  rw [parseHexChars_zeros]
  show parseHexChars (((hexDigits n).reverse).map hexChar) = n
  rw [parseHexChars_rev_map _ (hexDigits_lt n), listVal_hexDigits]

/-- C10: generateOrderId is BS, then the last two characters of the year,
then the uppercase hexadecimal order number left-padded with zeros to at
least five characters; the year part is the last two decimal digits of the
year; for order numbers up to 0xFFFFF the result is exactly nine characters
long; and within one year the function is injective in the order number. -/
theorem C10_generateOrderId (y n m : Nat) (hy1 : 2000 ≤ y) (hy2 : y < 2100) :
    generateOrderId y n =
      "BS" ++ sliceLast2 (toString y) ++ padStart (toHexUpper n) 5 '0'
  ∧ sliceLast2 (toString y) = padStart (toString (y % 100)) 2 '0'
  ∧ (n ≤ 0xFFFFF → (generateOrderId y n).length = 9)
  ∧ (generateOrderId y n = generateOrderId y m → n = m) := by
  have hdec : ∀ r : Nat, r < 100 →
      sliceLast2 (toString (2000 + r)) =
        padStart (toString ((2000 + r) % 100)) 2 '0' ∧
      (sliceLast2 (toString (2000 + r))).length = 2 := by decide
  have hyr : 2000 + (y - 2000) = y := by omega
  have hslice := hdec (y - 2000) (by omega)
  rw [hyr] at hslice
  refine ⟨rfl, hslice.1, ?_, ?_⟩
  · intro hn
    have hlen : (hexDigits n).length ≤ 5 := by
      refine hexDigits_length_le 4 n ?_
      norm_num at hn ⊢
      omega
    have hL : (toHexUpper n).length = (hexDigits n).length := by
      simp [toHexUpper, String.length]
    have hpad : (padStart (toHexUpper n) 5 '0').length = 5 := by
      simp only [padStart, String.length, List.length_append, List.length_replicate]
      have : (toHexUpper n).data.length = (hexDigits n).length := hL
      omega
    show ("BS" ++ sliceLast2 (toString y) ++ padStart (toHexUpper n) 5 '0').length = 9
    rw [String.length_append, String.length_append, hpad, hslice.2]
    rfl
  · intro heq
    have hdata := congrArg String.data heq
    show n = m
    simp only [generateOrderId, String.data_append, List.append_assoc] at hdata
    have h1 := List.append_cancel_left hdata
    have h2 := List.append_cancel_left h1
    have h3 := congrArg parseHexChars h2
    rwa [parse_padStart_toHexUpper n, parse_padStart_toHexUpper m] at h3

/-- Witness for C10 at the year 2026 and order number 255. -/
theorem C10_generateOrderId_witness :
    generateOrderId 2026 255 = "BS26000FF" ∧
    (generateOrderId 2026 255).length = 9 :=
  ⟨by decide,
   (C10_generateOrderId 2026 255 255 (by decide) (by decide)).2.2.1 (by decide)⟩

end BSNaman
